import Mathlib

/-!
# dynamodbLambda: a verification development

Shallow embedding of the three Go programs of the repository

* `src/lamda/main.go`            (namespace `Lamda`): the Lambda handler,
* `src/tableCreateV2.go`         (namespace `TableCreateV2`): the create-table utility,
* `src/tableDeleteV2/tableDeleteV2.go` (namespace `TableDeleteV2`): the delete-table utility,

together with the small part of the Go standard library and of the AWS SDK
they call (namespaces `Go` and `Sdk`).

Modelling conventions.

* A Go `error` value is a `Go.Error`: the text `err.Error()` returns and the
  view `errors.As(err, &ae)` gives on it as a `smithy.APIError` (absent when
  `errors.As` reports false). A possibly-nil `error` is an `Option Go.Error`.
* `int64` values are integers; the 64-bit range is checked explicitly where
  the code or the library checks it (`strconv.ParseInt`).
* The errors of the SDK decoder are kept by kind (`Sdk.DecodeError`); the
  handler answers them with a fixed response and never reads their text.
* Effects are explicit: the server-generated id and clock reading are inputs,
  the backing store is a client structure over a state type, and every store
  call is appended to a trace.
* A polling loop is run against the list of answers the store gives to its
  successive calls; a run that has consumed every answer without reaching a
  `return` has not returned.
-/

namespace Go

/-- An `smithy.APIError` as seen through `ErrorCode()` and `ErrorMessage()`. -/
structure APIError where
  code : String
  message : String
deriving DecidableEq, Repr

/-- A non-nil Go `error`: `text` is `err.Error()`, `api` is what
`errors.As(err, &ae)` finds for `ae : smithy.APIError`. -/
structure Error where
  text : String
  api : Option APIError
deriving DecidableEq, Repr

/-- The error `fmt.Errorf(format, ...)` builds when no `%w` verb is used:
a fresh error with the formatted text and nothing to unwrap. -/
def Errorf (text : String) : Error := { text := text, api := none }

/-- Does `sub` start the character list `s`. -/
def startsWithChars : List Char → List Char → Bool
  | _, [] => true
  | [], _ :: _ => false
  | c :: cs, d :: ds => c == d && startsWithChars cs ds

/-- Does `sub` occur in the character list `s`. -/
def containsChars : List Char → List Char → Bool
  | [], sub => startsWithChars [] sub
  | c :: cs, sub => startsWithChars (c :: cs) sub || containsChars cs sub

/-- Model of `strings.Contains(s, substr)`. -/
def stringsContains (s substr : String) : Bool := containsChars s.toList substr.toList

/-- The decimal digit character of `d < 10`. -/
def digitChar (d : Nat) : Char := Char.ofNat (48 + d)

/-- The digit loop of `strconv.FormatInt`: digits are produced from the least
significant one and prepended to what is already written. -/
def formatBits : Nat → Nat → List Char → List Char
  | 0, _, acc => acc
  | fuel + 1, n, acc =>
    if n < 10 then digitChar n :: acc
    else formatBits fuel (n / 10) (digitChar (n % 10) :: acc)

/-- Decimal text of a natural number. -/
def formatUint (n : Nat) : List Char := formatBits (n + 1) n []

/-- Model of `fmt.Sprint(i)` for `i : int64`: base 10, a leading `-` for
negative values. -/
def fmtSprint (i : Int) : String :=
  if i < 0 then String.mk ('-' :: formatUint i.natAbs) else String.mk (formatUint i.natAbs)

/-- Value of a decimal digit character. -/
def digitVal (c : Char) : Option Nat :=
  if 48 ≤ c.toNat ∧ c.toNat ≤ 57 then some (c.toNat - 48) else none

/-- The two errors a `*strconv.NumError` can carry. -/
inductive NumErr where
  | ErrSyntax
  | ErrRange
deriving DecidableEq, Repr

/-- The digit loop of `strconv.ParseUint` in base 10 and 64 bits, from the
left: a character that is no decimal digit is a syntax error, a value that
leaves the 64 bits is a range error, whichever comes first. -/
def parseDigits : List Char → Nat → Except NumErr Nat
  | [], acc => .ok acc
  | c :: cs, acc =>
    match digitVal c with
    | none => .error .ErrSyntax
    | some d =>
      if acc * 10 + d < 2 ^ 64 then parseDigits cs (acc * 10 + d) else .error .ErrRange

/-- Model of `strconv.ParseUint(s, 10, 64)`: the value or the `Err` of the
`*NumError`. -/
def ParseUint (s : List Char) : Except NumErr Nat :=
  match s with
  | [] => .error .ErrSyntax
  | _ :: _ => parseDigits s 0

/-- Model of `strconv.ParseInt(s, 10, 64)`: the value or the `Err` of the
`*NumError`. -/
def ParseInt (s : String) : Except NumErr Int :=
  match s.toList with
  | [] => .error .ErrSyntax
  | c :: cs =>
    let neg := c == '-'
    let rest := if c == '+' || c == '-' then cs else c :: cs
    match ParseUint rest with
    | .error .ErrSyntax => .error .ErrSyntax
    | .error .ErrRange => .error .ErrRange
    | .ok un =>
      if !neg && un ≥ 2 ^ 63 then .error .ErrRange
      else if neg && un > 2 ^ 63 then .error .ErrRange
      else .ok (if neg then -(un : Int) else (un : Int))

end Go

namespace Lamda

/-- The record type of `src/lamda/main.go`. -/
structure GamerRecord where
  GamerID : String
  TimeStamp : Int
  GamerName : String
  GamerPhoneNumber : String
  Game : String
deriving DecidableEq, Repr

/-- The zero value of `GamerRecord`, what `var gamerRecord GamerRecord` holds. -/
def GamerRecord.zero : GamerRecord :=
  { GamerID := "", TimeStamp := 0, GamerName := "", GamerPhoneNumber := "", Game := "" }

end Lamda

namespace Sdk

/-- The members of `types.AttributeValue`. The payload of a list or map value
is not modelled: no field of `GamerRecord` can receive one. -/
inductive AttributeValue where
  | S (value : String)
  | N (value : String)
  | B (value : List Nat)
  | BOOL (value : Bool)
  | NULL (value : Bool)
  | SS (value : List String)
  | NS (value : List String)
  | BS (value : List (List Nat))
  | L
  | M
deriving DecidableEq, Repr

/-- A Go `map[string]types.AttributeValue`: an association list, each key at
most once; the list order stands for the iteration order of `range`. -/
abbrev AttrMap := List (String × AttributeValue)

/-- The assignment `m[k] = v`. -/
def mapSet : AttrMap → String → AttributeValue → AttrMap
  | [], k, v => [(k, v)]
  | (k0, v0) :: rest, k, v => if k0 = k then (k, v) :: rest else (k0, v0) :: mapSet rest k v

/-- The lookup `m[k]` with its presence flag. -/
def mapGet : AttrMap → String → Option AttributeValue
  | [], _ => none
  | (k0, v0) :: rest, k => if k0 = k then some v0 else mapGet rest k

/-- The fields of `GamerRecord`, in declaration order. -/
inductive Field where
  | GamerID | TimeStamp | GamerName | GamerPhoneNumber | Game
deriving DecidableEq, Repr

/-- The name the decoder knows a field by: the struct declares `json` tags
only, and the decoder reads `dynamodbav` tags, so it is the Go field name. -/
def Field.name : Field → String
  | .GamerID => "GamerID"
  | .TimeStamp => "TimeStamp"
  | .GamerName => "GamerName"
  | .GamerPhoneNumber => "GamerPhoneNumber"
  | .Game => "Game"

/-- All fields in declaration order. -/
def Field.all : List Field :=
  [.GamerID, .TimeStamp, .GamerName, .GamerPhoneNumber, .Game]

/-- Simple case folding of one character to a representative of its orbit,
for the orbits that contain an ASCII letter: `A-Z` go to `a-z`, the Kelvin
sign U+212A to `k` and the long s U+017F to `s`. -/
def foldChar (c : Char) : Char :=
  if 65 ≤ c.toNat ∧ c.toNat ≤ 90 then Char.ofNat (c.toNat + 32)
  else if c.toNat = 0x212A then 'k'
  else if c.toNat = 0x017F then 's'
  else c

/-- Model of `strings.EqualFold(fieldName, key)` for an ASCII `fieldName`
(every field name of `GamerRecord` is ASCII). -/
def EqualFold (fieldName key : String) : Bool :=
  fieldName.toList.map foldChar == key.toList.map foldChar

/-- The decoder's field lookup: an exact match of the name first, otherwise
the first field whose name matches under case folding. -/
def FieldByName (key : String) : Option Field :=
  match Field.all.find? (fun f => f.name == key) with
  | some f => some f
  | none => Field.all.find? (fun f => EqualFold f.name key)

/-- The errors the decoder returns, by kind and with the fields the Go values
carry: an `*attributevalue.UnmarshalTypeError` with its `Value` and the name
of its `Type`, or the `*strconv.NumError` of a number that does not parse,
with its `Func`, `Num` and `Err`. Their texts are not modelled. -/
inductive DecodeError where
  | UnmarshalTypeError (value : String) (goType : String)
  | NumError (fn : String) (num : String) (err : Go.NumErr)
deriving DecidableEq, Repr

/-- Decoding one attribute value into a Go `string`: a NULL resets it to the
zero value, an S value sets it, an N value sets it to the text of the number,
every other member is a type error. -/
def decodeString (av : AttributeValue) : Except DecodeError String :=
  match av with
  | .NULL _ => .ok ""
  | .S s => .ok s
  | .N n => .ok n
  | .B _ => .error (.UnmarshalTypeError "binary" "string")
  | .BOOL _ => .error (.UnmarshalTypeError "bool" "string")
  | .SS _ => .error (.UnmarshalTypeError "string set" "string")
  | .NS _ => .error (.UnmarshalTypeError "number set" "string")
  | .BS _ => .error (.UnmarshalTypeError "binary set" "string")
  | .L => .error (.UnmarshalTypeError "list" "string")
  | .M => .error (.UnmarshalTypeError "map" "string")

/-- Decoding one attribute value into a Go `int64`: a NULL resets it to zero,
an N value is read by `strconv.ParseInt(n, 10, 64)`, whose error is returned
as it is, every other member is a type error. -/
def decodeInt64 (av : AttributeValue) : Except DecodeError Int :=
  match av with
  | .NULL _ => .ok 0
  | .N n =>
    match Go.ParseInt n with
    | .ok i => .ok i
    | .error err => .error (.NumError "ParseInt" n err)
  | .S _ => .error (.UnmarshalTypeError "string" "int64")
  | .B _ => .error (.UnmarshalTypeError "binary" "int64")
  | .BOOL _ => .error (.UnmarshalTypeError "bool" "int64")
  | .SS _ => .error (.UnmarshalTypeError "string set" "int64")
  | .NS _ => .error (.UnmarshalTypeError "number set" "int64")
  | .BS _ => .error (.UnmarshalTypeError "binary set" "int64")
  | .L => .error (.UnmarshalTypeError "list" "int64")
  | .M => .error (.UnmarshalTypeError "map" "int64")

/-- Decoding an attribute value into one field of the record. -/
def decodeField (f : Field) (av : AttributeValue) (r : Lamda.GamerRecord) :
    Except DecodeError Lamda.GamerRecord :=
  match f with
  | .GamerID => (decodeString av).map (fun s => { r with GamerID := s })
  | .TimeStamp => (decodeInt64 av).map (fun i => { r with TimeStamp := i })
  | .GamerName => (decodeString av).map (fun s => { r with GamerName := s })
  | .GamerPhoneNumber => (decodeString av).map (fun s => { r with GamerPhoneNumber := s })
  | .Game => (decodeString av).map (fun s => { r with Game := s })

/-- Model of `attributevalue.UnmarshalMap(m, out)` for `out : *GamerRecord`:
every entry of the map whose key names a field is decoded into that field,
entries naming no field are skipped, and the first failure is returned. -/
def UnmarshalMap : AttrMap → Lamda.GamerRecord → Except DecodeError Lamda.GamerRecord
  | [], r => .ok r
  | (k, av) :: rest, r =>
    match FieldByName k with
    | none => UnmarshalMap rest r
    | some f =>
      match decodeField f av r with
      | .error e => .error e
      | .ok r1 => UnmarshalMap rest r1

/-- Input of `PutItem`. -/
structure PutItemInput where
  TableName : String
  Item : AttrMap
deriving DecidableEq, Repr

/-- Input of `GetItem`. -/
structure GetItemInput where
  TableName : String
  Key : AttrMap
deriving DecidableEq, Repr

/-- The two operations of `*dynamodb.Client` the handler uses, over a store
state `σ`. `GetItem` yields the `Item` of its output, `none` when it is nil. -/
structure Client (σ : Type) where
  PutItem : PutItemInput → σ → Except Go.Error Unit × σ
  GetItem : GetItemInput → σ → Except Go.Error (Option AttrMap) × σ

/-- A store call, as recorded in the trace. -/
inductive Call where
  | PutItem (input : PutItemInput)
  | GetItem (input : GetItemInput)
deriving DecidableEq, Repr

/-- The backing store and the trace of calls made on it so far. -/
structure World (σ : Type) where
  store : σ
  calls : List Call

end Sdk

namespace Lamda

/-- The constant `TableName` of `src/lamda/main.go`. -/
def TableName : String := "gamerDetails"

/-- The constant `Region` of `src/lamda/main.go`. -/
def Region : String := "us-east-1"

/-- The request envelope; `PathParameters` is a Go `map[string]string`. -/
structure Request where
  HTTPMethod : String
  Body : String
  PathParameters : List (String × String)
deriving DecidableEq, Repr

/-- The response envelope. -/
structure Response where
  StatusCode : Int
  Body : String
deriving DecidableEq, Repr

/-- The index expression `m[k]` on a `map[string]string`: the zero value `""`
when the key is absent (or the map is nil). -/
def pathParam : List (String × String) → String → String
  | [], _ => ""
  | (k0, v0) :: rest, k => if k0 = k then v0 else pathParam rest k

/-- What a successful `json.Unmarshal(data, &gamerRecord)` assigns: for each
field of the struct the value the JSON text carries for it, `none` when the
text carries none (the field is then left as it was). -/
structure Decoded where
  GamerID : Option String
  TimeStamp : Option Int
  GamerName : Option String
  GamerPhoneNumber : Option String
  Game : Option String
deriving DecidableEq, Repr

/-- The effect of a successful `json.Unmarshal` on the destination struct. -/
def Decoded.assign (d : Decoded) (r : GamerRecord) : GamerRecord :=
  { GamerID := d.GamerID.getD r.GamerID
    TimeStamp := d.TimeStamp.getD r.TimeStamp
    GamerName := d.GamerName.getD r.GamerName
    GamerPhoneNumber := d.GamerPhoneNumber.getD r.GamerPhoneNumber
    Game := d.Game.getD r.Game }

/-- The package `encoding/json` as the handler uses it: `Unmarshal` of a
request body into a `GamerRecord` and `Marshal` of a `GamerRecord`. Both are
library functions and stay parameters of the model. -/
structure Json where
  Unmarshal : String → Except Go.Error Decoded
  Marshal : GamerRecord → String

/-- What one invocation draws from the environment: the text of `uuid.New()`
and the reading of `time.Now().Unix()`. -/
structure Server where
  uuid : String
  unixTime : Int
deriving DecidableEq, Repr

/-- Embedding of `toJSON`: the error of `json.Marshal` is dropped. -/
def toJSON (js : Json) (data : GamerRecord) : String := js.Marshal data

/-- Embedding of `NowUnixTimestamp`. -/
def NowUnixTimestamp (srv : Server) : Int := srv.unixTime

/-- Embedding of `unmarshalAttributeValue`: the map is copied entry by entry
and handed to `attributevalue.UnmarshalMap`, whose error is returned as it is
(an `error` of the decoder, kept here by kind). -/
def unmarshalAttributeValue (av : Sdk.AttrMap) (v : GamerRecord) :
    Except Sdk.DecodeError GamerRecord :=
  let marshalMap : Sdk.AttrMap := av.foldl (fun m kv => Sdk.mapSet m kv.1 kv.2) []
  match Sdk.UnmarshalMap marshalMap v with
  | .error err => .error err
  | .ok r => .ok r

/-- The result of a handler: the `(Response, error)` pair and the world after
the call. -/
abbrev Outcome (σ : Type) := (Response × Option Go.Error) × Sdk.World σ

/-- Embedding of `CreateGamer`. -/
def CreateGamer {σ : Type} (js : Json) (dbClient : Sdk.Client σ) (srv : Server)
    (request : Request) (w : Sdk.World σ) : Outcome σ :=
  let gamerID := srv.uuid
  let timeStamp := NowUnixTimestamp srv
  match js.Unmarshal request.Body with
  | .error _ => (({ StatusCode := 400, Body := "Invalid request body" }, none), w)
  | .ok d =>
    let parsed := d.assign GamerRecord.zero
    let gamerRecord : GamerRecord := { parsed with GamerID := gamerID, TimeStamp := timeStamp }
    let putItemInput : Sdk.PutItemInput :=
      { TableName := TableName
        Item :=
          [ ("gamerID", .S gamerRecord.GamerID),
            ("timeStamp", .N (Go.fmtSprint gamerRecord.TimeStamp)),
            ("gamerName", .S gamerRecord.GamerName),
            ("gamerPhoneNumber", .S gamerRecord.GamerPhoneNumber),
            ("game", .S gamerRecord.Game) ] }
    match dbClient.PutItem putItemInput w.store with
    | (.error _, s) =>
      (({ StatusCode := 500, Body := "Failed to create gamer" }, none),
        { store := s, calls := w.calls ++ [.PutItem putItemInput] })
    | (.ok _, s) =>
      (({ StatusCode := 201, Body := toJSON js gamerRecord }, none),
        { store := s, calls := w.calls ++ [.PutItem putItemInput] })

/-- Embedding of `GetGamerDetails`. -/
def GetGamerDetails {σ : Type} (js : Json) (dbClient : Sdk.Client σ)
    (request : Request) (w : Sdk.World σ) : Outcome σ :=
  let gamerID := pathParam request.PathParameters "gamerID"
  let getItemInput : Sdk.GetItemInput :=
    { TableName := TableName, Key := [("gamerID", .S gamerID)] }
  match dbClient.GetItem getItemInput w.store with
  | (.error _, s) =>
    (({ StatusCode := 500, Body := "Failed to get gamer details" }, none),
      { store := s, calls := w.calls ++ [.GetItem getItemInput] })
  | (.ok none, s) =>
    (({ StatusCode := 404, Body := "Gamer not found" }, none),
      { store := s, calls := w.calls ++ [.GetItem getItemInput] })
  | (.ok (some item), s) =>
    match unmarshalAttributeValue item GamerRecord.zero with
    | .error _ =>
      (({ StatusCode := 500, Body := "Failed to unmarshal gamer details" }, none),
        { store := s, calls := w.calls ++ [.GetItem getItemInput] })
    | .ok gamerRecord =>
      (({ StatusCode := 200, Body := toJSON js gamerRecord }, none),
        { store := s, calls := w.calls ++ [.GetItem getItemInput] })

/-- Embedding of `HandleRequest` (the context argument is unused). -/
def HandleRequest {σ : Type} (js : Json) (dbClient : Sdk.Client σ) (srv : Server)
    (request : Request) (w : Sdk.World σ) : Outcome σ :=
  if request.HTTPMethod = "POST" then CreateGamer js dbClient srv request w
  else if request.HTTPMethod = "GET" then GetGamerDetails js dbClient request w
  else (({ StatusCode := 400, Body := "Invalid HTTP method" }, none), w)

end Lamda

namespace Util

/-- What a table utility does that can be observed from outside, in order. -/
inductive Event where
  | Log (message : String)
  | Print (message : String)
  | CreateTable (tableName : String)
  | DescribeTable (tableName : String)
  | DeleteTable (tableName : String)
  | Sleep (seconds : Nat)
deriving DecidableEq, Repr

/-- A run of a piece of a utility: `result` is what it returned, `none` when
it has not returned after every answer of the store was consumed; `trace` is
what it did. -/
structure Run (α : Type) where
  result : Option α
  trace : List Event
deriving DecidableEq, Repr

/-- Exit code of `log.Fatalf`. -/
def fatalExit : Nat := 1

end Util

namespace TableCreateV2

open Util

/-- The constant `PkName`. -/
def PkName : String := "gamerID"
/-- The constant `SkName`. -/
def SkName : String := "timeStamp"
/-- The constant `TableName`. -/
def TableName : String := "gamerDetails"
/-- The constant `GlobalWriteReadCap`. -/
def GlobalWriteReadCap : Int := 2
/-- The constant `PartitionWriteReadCap`. -/
def PartitionWriteReadCap : Int := 2
/-- The constant `Location`. -/
def Location : String := "us-east-1"

/-- An entry of `AttributeDefinitions`. -/
structure AttributeDefinition where
  AttributeName : String
  AttributeType : String
deriving DecidableEq, Repr

/-- An entry of `KeySchema`. -/
structure KeySchemaElement where
  AttributeName : String
  KeyType : String
deriving DecidableEq, Repr

/-- The `ProvisionedThroughput` of the input. -/
structure ProvisionedThroughput where
  ReadCapacityUnits : Int
  WriteCapacityUnits : Int
deriving DecidableEq, Repr

/-- Input of `CreateTable`. -/
structure CreateTableInput where
  TableName : String
  AttributeDefinitions : List AttributeDefinition
  KeySchema : List KeySchemaElement
  ProvisionedThroughput : ProvisionedThroughput
deriving DecidableEq, Repr

/-- The value of `types.TableStatusActive` (`TableStatus` is a string type). -/
def TableStatusActive : String := "ACTIVE"

/-- One answer of `DescribeTable`: the error, or `resp.Table.TableStatus` (an
answer without an error carries a table description). -/
abbrev DescribeAnswer := Except Go.Error String

/-- Embedding of `createTable`; `svcCreateTable` is `svc.CreateTable`. -/
def createTable (svcCreateTable : CreateTableInput → Option Go.Error) :
    Option Go.Error × List Event :=
  let input : CreateTableInput :=
    { TableName := TableName
      AttributeDefinitions :=
        [ { AttributeName := PkName, AttributeType := "S" },
          { AttributeName := SkName, AttributeType := "S" } ]
      KeySchema :=
        [ { AttributeName := PkName, KeyType := "HASH" },
          { AttributeName := SkName, KeyType := "RANGE" } ]
      ProvisionedThroughput :=
        { ReadCapacityUnits := PartitionWriteReadCap
          WriteCapacityUnits := GlobalWriteReadCap } }
  match svcCreateTable input with
  | some err => (some err, [.CreateTable input.TableName, .Log err.text])
  | none => (none, [.CreateTable input.TableName])

/-- Embedding of `HandleDynamoDBError`: the returned error and what is logged. -/
def HandleDynamoDBError (err : Option Go.Error) : Option Go.Error × List Event :=
  match err with
  | none => (none, [])
  | some e =>
    match e.api with
    | some ae =>
      if ae.code = "ResourceInUseException" then
        (none, [.Log ("Table already exists: " ++ TableName)])
      else if ae.code = "LimitExceededException" then
        (some (Go.Errorf ("limit exceeded: " ++ ae.message)), [])
      else if ae.code = "InternalServerError" then
        (some (Go.Errorf ("internal Server Error: " ++ ae.message)), [])
      else if ae.code = "ProvisionedThroughputExceededException" then
        (some (Go.Errorf ("provisioned throughput exceeded: " ++ ae.message)), [])
      else if ae.code = "ResourceNotFoundException" then
        (some (Go.Errorf ("resource not found: " ++ ae.message)), [])
      else if ae.code = "ConditionalCheckFailedException" then
        (some (Go.Errorf ("conditional check failed: " ++ ae.message)), [])
      else if Go.stringsContains e.text "no such host" then
        (some (Go.Errorf
          "dns resolution error. Please check your internet connection or AWS endpoint configuration"),
          [])
      else (some e, [])
    | none => (some e, [])

/-- Embedding of `waitForTableCreation`, run against the answers `DescribeTable`
gives to the successive calls of the loop. -/
def waitForTableCreation (tableName : String) : List DescribeAnswer → Run (Option Go.Error)
  | [] => { result := none, trace := [] }
  | .error err :: _ => { result := some (some err), trace := [.DescribeTable tableName] }
  | .ok status :: rest =>
    if status = TableStatusActive then
      { result := some none, trace := [.DescribeTable tableName] }
    else
      let later := waitForTableCreation tableName rest
      { result := later.result
        trace := .DescribeTable tableName :: .Sleep 5 :: later.trace }

/-- Embedding of `main`: `cfgErr` is the error of `loadConfig`, the result of
the run is the exit code of the process. -/
def main (cfgErr : Option Go.Error) (svcCreateTable : CreateTableInput → Option Go.Error)
    (answers : List DescribeAnswer) : Run Nat :=
  match cfgErr with
  | some err =>
    { result := some fatalExit
      trace := [.Log ("Failed to load AWS configuration: " ++ err.text)] }
  | none =>
    let created := createTable svcCreateTable
    let t0 : List Event := .Log "Attempting to create table..." :: created.2
    match created.1 with
    | some err =>
      if Go.stringsContains err.text "Table already exists" then
        { result := some 0, trace := t0 ++ [.Log ("CreateTable: " ++ err.text)] }
      else
        { result := some fatalExit
          trace := t0 ++ [.Log ("Failed to create DynamoDB table: " ++ err.text)] }
    | none =>
      let waited := waitForTableCreation TableName answers
      let t1 : List Event := t0 ++ .Log "Waiting for table creation..." :: waited.trace
      match waited.result with
      | none => { result := none, trace := t1 }
      | some (some err) =>
        { result := some fatalExit
          trace := t1 ++ [.Log ("waitForTableCreation: " ++ err.text),
            .Log ("Failed to wait for table creation: " ++ err.text)] }
      | some none => { result := some 0, trace := t1 ++ [.Print "Table created successfully!"] }

/-- The number of `DescribeTable` calls in a trace. -/
def describeCalls (t : List Event) : Nat :=
  (t.filter (fun e => match e with | .DescribeTable _ => true | _ => false)).length

/-- The seconds slept in a trace. -/
def sleptSeconds : List Event → Nat
  | [] => 0
  | .Sleep n :: rest => n + sleptSeconds rest
  | _ :: rest => sleptSeconds rest

end TableCreateV2

namespace TableDeleteV2

open Util

/-- The constant `TableName`. -/
def TableName : String := "gamerDetails"
/-- The constant `Location`. -/
def Location : String := "us-east-1"

/-- Embedding of `handleDeleteError`. -/
def handleDeleteError (err : Option Go.Error) : Option Go.Error :=
  match err with
  | none => none
  | some e =>
    match e.api with
    | some ae =>
      if ae.code = "TableInUseException" then
        some (Go.Errorf ("table is in use: " ++ ae.message))
      else if ae.code = "TableNotFoundException" ∨ ae.code = "ResourceNotFoundException" then
        some (Go.Errorf ("table not found: " ++ ae.message))
      else some e
    | none => some e

/-- Embedding of `deleteTable`; `svcDeleteTable` is `svc.DeleteTable`, called
with the table name of the input. -/
def deleteTable (svcDeleteTable : String → Option Go.Error) : Option Go.Error :=
  let input := TableName
  let err := svcDeleteTable input
  handleDeleteError err

/-- Embedding of `main`: the exit code of the process and what it wrote. -/
def main (cfgErr : Option Go.Error) (svcDeleteTable : String → Option Go.Error) : Run Nat :=
  match cfgErr with
  | some err =>
    { result := some fatalExit
      trace := [.Log ("Failed to load AWS configuration: " ++ err.text)] }
  | none =>
    match deleteTable svcDeleteTable with
    | some err =>
      { result := some fatalExit
        trace := [.DeleteTable TableName, .Log ("Failed to delete DynamoDB table: " ++ err.text)] }
    | none =>
      { result := some 0, trace := [.DeleteTable TableName, .Print "Table deleted successfully!"] }

end TableDeleteV2

/-! ## Stores, inputs and stand-ins used to state and instantiate the properties -/

namespace Sdk

/-- Does `item` carry every attribute of `key` with the same value. -/
def matchesKey (key item : AttrMap) : Bool :=
  key.all (fun kv => mapGet item kv.1 == some kv.2)

/-- The store model of the create-then-get property: `PutItem` succeeds and
stores the item, and a `GetItem` that follows it on the same table with a key
the item carries returns that item. -/
def StoresItems {σ : Type} (db : Client σ) : Prop :=
  ∀ (input : PutItemInput) (s : σ), ∃ s1, db.PutItem input s = (.ok (), s1) ∧
    ∀ key, matchesKey key input.Item = true →
      ∃ s2, db.GetItem { TableName := input.TableName, Key := key } s1 =
        (.ok (some input.Item), s2)

end Sdk

namespace Fake

/-- An in-memory store: the items written, newest first, each with its table. -/
def table : Sdk.Client (List (String × Sdk.AttrMap)) where
  PutItem input s := (.ok (), (input.TableName, input.Item) :: s)
  GetItem input s :=
    (.ok ((s.find? (fun e => e.1 == input.TableName && Sdk.matchesKey input.Key e.2)).map
      (fun e => e.2)), s)

/-- A store every call of which fails with `e`. -/
def failing (e : Go.Error) : Sdk.Client Unit where
  PutItem _ s := (.error e, s)
  GetItem _ s := (.error e, s)

/-- The request body of the end-to-end example of the specification. -/
def adaBody : String := "\x7b\"gamerName\":\"Ada\",\"game\":\"chess\"\x7d"

/-- A request body that carries an id and a timestamp of its own. -/
def ownIdBody : String := "\x7b\"gamerID\":\"mine\",\"timeStamp\":7,\"gamerName\":\"Bo\"\x7d"

/-- A stand-in for `encoding/json` that knows the two request bodies above and
writes a record as its fields separated by bars. -/
def json : Lamda.Json where
  Unmarshal body :=
    if body = adaBody then
      .ok { GamerID := none, TimeStamp := none, GamerName := some "Ada",
            GamerPhoneNumber := none, Game := some "chess" }
    else if body = ownIdBody then
      .ok { GamerID := some "mine", TimeStamp := some 7, GamerName := some "Bo",
            GamerPhoneNumber := none, Game := none }
    else .error (Go.Errorf "invalid character")
  Marshal r :=
    r.GamerID ++ "|" ++ Go.fmtSprint r.TimeStamp ++ "|" ++ r.GamerName ++ "|" ++
      r.GamerPhoneNumber ++ "|" ++ r.Game

/-- A server that draws a fixed id and clock reading. -/
def server : Lamda.Server := { uuid := "3f2b8c1e-0000-4000-8000-000000000001", unixTime := 1700000000 }

/-- A throttling error of the store. -/
def throttled : Go.Error :=
  { text := "operation error DynamoDB: PutItem, ProvisionedThroughputExceededException: rate exceeded"
    api := some { code := "ProvisionedThroughputExceededException", message := "rate exceeded" } }

/-- A connectivity error of the store. -/
def connectionLost : Go.Error :=
  { text := "operation error DynamoDB: GetItem, request send failed: dial tcp: i/o timeout"
    api := none }

/-- A stored item whose timestamp is a string, not a number. -/
def malformedItem : Sdk.AttrMap :=
  [("gamerID", .S "g1"), ("timeStamp", .S "yesterday"), ("gamerName", .S "Ada")]

/-- A stored item whose name is a number attribute. -/
def numericNameItem : Sdk.AttrMap :=
  [("gamerID", .S "g1"), ("timeStamp", .N "1700000000"), ("gamerName", .N "42")]

/-- A stored item whose timestamp does not fit 64 bits. -/
def overflowItem : Sdk.AttrMap :=
  [("gamerID", .S "g1"), ("timeStamp", .N "9223372036854775808")]

/-- A stored item as `CreateGamer` writes it. -/
def goodItem : Sdk.AttrMap :=
  [ ("gamerID", .S "g1"), ("timeStamp", .N "1700000000"), ("gamerName", .S "Ada"),
    ("gamerPhoneNumber", .S ""), ("game", .S "chess") ]

/-- The empty world over the in-memory store. -/
def emptyWorld : Sdk.World (List (String × Sdk.AttrMap)) := { store := [], calls := [] }

end Fake

namespace TableCreateV2

/-- The six structured codes `HandleDynamoDBError` has a case for. -/
def recognisedCodes : List String :=
  [ "ResourceInUseException", "LimitExceededException", "InternalServerError",
    "ProvisionedThroughputExceededException", "ResourceNotFoundException",
    "ConditionalCheckFailedException" ]

/-- An error with a structured code `HandleDynamoDBError` has no case for. -/
def accessDenied : Go.Error :=
  { text := "api error AccessDeniedException: User is not authorized to perform: dynamodb:CreateTable"
    api := some { code := "AccessDeniedException",
                  message := "User is not authorized to perform: dynamodb:CreateTable" } }

/-- An error with a structured code `HandleDynamoDBError` has no case for and
a text that mentions a failed host lookup. -/
def hostLookupFailure : Go.Error :=
  { text := "api error UnknownOperationException: lookup dynamodb.us-east-1.amazonaws.com: no such host"
    api := some { code := "UnknownOperationException",
                  message := "lookup dynamodb.us-east-1.amazonaws.com: no such host" } }

/-- An answer that ends the wait: a failure, or a table reported Active. -/
def isTerminal : DescribeAnswer → Bool
  | .error _ => true
  | .ok status => status == TableStatusActive

/-- The trace of `n` polls that each found the table not yet Active: a
`DescribeTable` call followed by a sleep of five seconds, `n` times. -/
def pollTrace (tableName : String) : Nat → List Util.Event
  | 0 => []
  | n + 1 => .DescribeTable tableName :: .Sleep 5 :: pollTrace tableName n

/-- The first `n` answers of a store that gives `f k` to the call number `k`. -/
def answersOf (f : Nat → DescribeAnswer) (n : Nat) : List DescribeAnswer :=
  (List.range n).map f

/-- A store whose `DescribeTable` always succeeds and reports CREATING. -/
def alwaysCreating : Nat → DescribeAnswer := fun _ => .ok "CREATING"

/-- A store whose table is CREATING for two polls and ACTIVE from the third. -/
def activeAtThird : Nat → DescribeAnswer := fun k => if k < 2 then .ok "CREATING" else .ok "ACTIVE"

/-- A describe failure. -/
def describeDenied : Go.Error :=
  { text := "api error AccessDeniedException: User is not authorized to perform: dynamodb:DescribeTable"
    api := some { code := "AccessDeniedException",
                  message := "User is not authorized to perform: dynamodb:DescribeTable" } }

/-- A create-table failure with the structured code ResourceInUseException
whose text does not contain "Table already exists". -/
def tableBeingCreated : Go.Error :=
  { text := "operation error DynamoDB: CreateTable, https response error StatusCode: 400, " ++
      "RequestID: R1, ResourceInUseException: Table is being created: gamerDetails"
    api := some { code := "ResourceInUseException",
                  message := "Table is being created: gamerDetails" } }

/-- A create-table failure with another structured code whose text contains
"Table already exists". -/
def internalWithPhrase : Go.Error :=
  { text := "operation error DynamoDB: CreateTable, https response error StatusCode: 500, " ++
      "RequestID: R2, InternalServerError: Table already exists check could not be completed"
    api := some { code := "InternalServerError",
                  message := "Table already exists check could not be completed" } }

/-- The already-exists failure as the service reports it. -/
def tableAlreadyExists : Go.Error :=
  { text := "operation error DynamoDB: CreateTable, https response error StatusCode: 400, " ++
      "RequestID: R3, ResourceInUseException: Table already exists: gamerDetails"
    api := some { code := "ResourceInUseException",
                  message := "Table already exists: gamerDetails" } }

end TableCreateV2

namespace TableDeleteV2

/-- The failure of a delete request for a table that does not exist. -/
def tableMissing : Go.Error :=
  { text := "operation error DynamoDB: DeleteTable, https response error StatusCode: 400, " ++
      "RequestID: R4, ResourceNotFoundException: Requested resource not found: Table: gamerDetails not found"
    api := some { code := "ResourceNotFoundException",
                  message := "Requested resource not found: Table: gamerDetails not found" } }

end TableDeleteV2

/-! ## Properties

Lemmas about the library models first, then the handler, the delete-table
utility and the create-table utility. -/

namespace Go

theorem digitVal_digitChar (d : Nat) (h : d < 10) : digitVal (digitChar d) = some d := by
  interval_cases d <;> decide

theorem digitChar_not_sign (d : Nat) (h : d < 10) :
    (digitChar d == '-') = false ∧ (digitChar d == '+') = false := by
  interval_cases d <;> decide

theorem parseDigits_append (xs ys : List Char) (acc : Nat) :
    parseDigits (xs ++ ys) acc =
      match parseDigits xs acc with
      | .ok m => parseDigits ys m
      | .error e => .error e := by
  induction xs generalizing acc with
  | nil => simp [parseDigits]
  | cons c cs ih =>
    simp only [List.cons_append, parseDigits]
    cases digitVal c with
    | none => rfl
    | some d =>
      simp only
      split
      · exact ih (acc * 10 + d)
      · rfl

theorem formatBits_acc (fuel n : Nat) (acc : List Char) :
    formatBits fuel n acc = formatBits fuel n [] ++ acc := by
  induction fuel generalizing n acc with
  | zero => simp [formatBits]
  | succ k ih =>
    simp only [formatBits]
    split
    · simp
    · rw [ih (n / 10) (digitChar (n % 10) :: acc), ih (n / 10) [digitChar (n % 10)]]
      simp

theorem parseDigits_formatBits (fuel n : Nat) (h : n < fuel) (hb : n < 2 ^ 64) :
    parseDigits (formatBits fuel n []) 0 = .ok n := by
  induction fuel generalizing n with
  | zero => omega
  | succ k ih =>
    simp only [formatBits]
    split
    · rename_i hn
      have hn64 : 0 * 10 + n < 2 ^ 64 := by omega
      simp only [parseDigits, digitVal_digitChar n hn, if_pos hn64]
      congr 1
      omega
    · rename_i hn
      have hk : n / 10 < k := by omega
      have hk64 : n / 10 < 2 ^ 64 := by omega
      have hd := digitVal_digitChar (n % 10) (Nat.mod_lt n (by decide))
      have hstep : n / 10 * 10 + n % 10 < 2 ^ 64 := by omega
      rw [formatBits_acc, parseDigits_append, ih (n / 10) hk hk64]
      simp only [parseDigits, hd, if_pos hstep]
      congr 1
      omega

theorem formatBits_head (fuel n : Nat) (acc : List Char) (h : n < fuel) :
    ∃ d tl, d < 10 ∧ formatBits fuel n acc = digitChar d :: tl := by
  induction fuel generalizing n acc with
  | zero => omega
  | succ k ih =>
    simp only [formatBits]
    split
    · rename_i hn
      exact ⟨n, acc, hn, rfl⟩
    · exact ih (n / 10) _ (by omega)

theorem ParseUint_formatUint (n : Nat) (h : n < 2 ^ 64) : ParseUint (formatUint n) = .ok n := by
  obtain ⟨d, tl, _, htl⟩ := formatBits_head (n + 1) n [] (Nat.lt_succ_self n)
  have hp := parseDigits_formatBits (n + 1) n (Nat.lt_succ_self n) h
  unfold formatUint
  rw [htl] at hp ⊢
  simp only [ParseUint, hp]

/-- Reading back what `fmt.Sprint` wrote for an `int64` gives the value. -/
theorem ParseInt_fmtSprint (i : Int) (hlo : -(2 ^ 63 : Int) ≤ i) (hhi : i < 2 ^ 63) :
    ParseInt (fmtSprint i) = .ok i := by
  unfold fmtSprint
  by_cases hneg : i < 0
  · have hb : i.natAbs < 2 ^ 64 := by omega
    have hu := ParseUint_formatUint i.natAbs hb
    have hle : ¬ i.natAbs > 2 ^ 63 := by omega
    have hval : -((i.natAbs : Nat) : Int) = i := by omega
    simp only [hneg, if_true, ParseInt, String.toList]
    simp only [beq_self_eq_true, Bool.or_true, if_true, hu, Bool.not_true, Bool.false_and,
      Bool.true_and, decide_eq_true_eq, hle, if_false, hval, Bool.false_eq_true]
  · have hb : i.natAbs < 2 ^ 64 := by omega
    have hu := ParseUint_formatUint i.natAbs hb
    obtain ⟨d, tl, hd, htl⟩ := formatBits_head (i.natAbs + 1) i.natAbs [] (Nat.lt_succ_self _)
    have hfu : formatUint i.natAbs = digitChar d :: tl := htl
    have hs := digitChar_not_sign d hd
    have hlt : ¬ i.natAbs ≥ 2 ^ 63 := by omega
    have hval : ((i.natAbs : Nat) : Int) = i := by omega
    simp only [hneg, if_false, ParseInt, String.toList]
    rw [hfu] at hu ⊢
    simp only [hs.1, hs.2, Bool.or_false, Bool.false_eq_true, if_false, hu, Bool.not_false,
      Bool.true_and, Bool.false_and, decide_eq_true_eq, hlt, hval]

end Go

namespace Sdk

theorem FieldByName_gamerID : FieldByName "gamerID" = some .GamerID := by decide
theorem FieldByName_timeStamp : FieldByName "timeStamp" = some .TimeStamp := by decide
theorem FieldByName_gamerName : FieldByName "gamerName" = some .GamerName := by decide
theorem FieldByName_gamerPhoneNumber :
    FieldByName "gamerPhoneNumber" = some .GamerPhoneNumber := by decide
theorem FieldByName_game : FieldByName "game" = some .Game := by decide

/-- The in-memory store is a store in the sense of `StoresItems`. -/
theorem table_storesItems : StoresItems Fake.table := by
  intro input s
  refine ⟨(input.TableName, input.Item) :: s, rfl, ?_⟩
  intro key hkey
  refine ⟨(input.TableName, input.Item) :: s, ?_⟩
  simp [Fake.table, List.find?, hkey]

end Sdk

namespace Lamda

/-- The item `CreateGamer` writes decodes back to the record it was built from. -/
theorem unmarshal_written_item (id name phone game : String) (ts : Int)
    (hlo : -(2 ^ 63 : Int) ≤ ts) (hhi : ts < 2 ^ 63) :
    unmarshalAttributeValue
      [ ("gamerID", .S id), ("timeStamp", .N (Go.fmtSprint ts)), ("gamerName", .S name),
        ("gamerPhoneNumber", .S phone), ("game", .S game) ] GamerRecord.zero =
      .ok { GamerID := id, TimeStamp := ts, GamerName := name, GamerPhoneNumber := phone,
            Game := game } := by
  have hcopy : List.foldl (fun (m : Sdk.AttrMap) kv => Sdk.mapSet m kv.1 kv.2) []
      [ ("gamerID", Sdk.AttributeValue.S id), ("timeStamp", .N (Go.fmtSprint ts)),
        ("gamerName", .S name), ("gamerPhoneNumber", .S phone), ("game", .S game) ] =
      [ ("gamerID", .S id), ("timeStamp", .N (Go.fmtSprint ts)), ("gamerName", .S name),
        ("gamerPhoneNumber", .S phone), ("game", .S game) ] := by
    simp [List.foldl, Sdk.mapSet]
  unfold unmarshalAttributeValue
  simp only [hcopy, Sdk.UnmarshalMap, Sdk.FieldByName_gamerID, Sdk.FieldByName_timeStamp,
    Sdk.FieldByName_gamerName, Sdk.FieldByName_gamerPhoneNumber, Sdk.FieldByName_game,
    Sdk.decodeField, Sdk.decodeString, Sdk.decodeInt64, Go.ParseInt_fmtSprint ts hlo hhi,
    Except.map, GamerRecord.zero]

/-- A POST is dispatched to `CreateGamer`. -/
theorem HandleRequest_post {σ : Type} (js : Json) (db : Sdk.Client σ) (srv : Server)
    (request : Request) (w : Sdk.World σ) (h : request.HTTPMethod = "POST") :
    HandleRequest js db srv request w = CreateGamer js db srv request w := by
  simp [HandleRequest, h]

/-- A GET is dispatched to `GetGamerDetails`. -/
theorem HandleRequest_get {σ : Type} (js : Json) (db : Sdk.Client σ) (srv : Server)
    (request : Request) (w : Sdk.World σ) (h : request.HTTPMethod = "GET") :
    HandleRequest js db srv request w = GetGamerDetails js db request w := by
  simp [HandleRequest, h]

/-- What `CreateGamer` does when the body parses and the write succeeds. -/
theorem CreateGamer_of_put_ok {σ : Type} (js : Json) (db : Sdk.Client σ) (srv : Server)
    (request : Request) (w : Sdk.World σ) (d : Decoded) (s1 : σ)
    (hparse : js.Unmarshal request.Body = .ok d)
    (hput : db.PutItem
      { TableName := "gamerDetails"
        Item :=
          [ ("gamerID", .S srv.uuid), ("timeStamp", .N (Go.fmtSprint srv.unixTime)),
            ("gamerName", .S (d.GamerName.getD "")),
            ("gamerPhoneNumber", .S (d.GamerPhoneNumber.getD "")),
            ("game", .S (d.Game.getD "")) ] } w.store = (.ok (), s1)) :
    CreateGamer js db srv request w =
      (({ StatusCode := 201
          Body := js.Marshal
            { GamerID := srv.uuid, TimeStamp := srv.unixTime
              GamerName := d.GamerName.getD ""
              GamerPhoneNumber := d.GamerPhoneNumber.getD ""
              Game := d.Game.getD "" } }, none),
        { store := s1
          calls := w.calls ++ [.PutItem
            { TableName := "gamerDetails"
              Item :=
                [ ("gamerID", .S srv.uuid), ("timeStamp", .N (Go.fmtSprint srv.unixTime)),
                  ("gamerName", .S (d.GamerName.getD "")),
                  ("gamerPhoneNumber", .S (d.GamerPhoneNumber.getD "")),
                  ("game", .S (d.Game.getD "")) ] }] }) := by
  simp only [CreateGamer, hparse, Decoded.assign, GamerRecord.zero, NowUnixTimestamp, TableName,
    toJSON] at hput ⊢
  rw [hput]

/-- C2. Create postcondition: when the request body parses and the store write
succeeds, `CreateGamer` answers 201 with a nil error; the body is what
`json.Marshal` gives for the record whose id and timestamp are the ones the
server drew (whatever the body carried for them) and whose name, phone number
and game are those of the body, empty where the body has none; the one store
call made is the `PutItem` of the item carrying these five values, the
timestamp in decimal. -/
theorem createGamer_postcondition {σ : Type} (js : Json) (db : Sdk.Client σ) (srv : Server)
    (request : Request) (w : Sdk.World σ) (d : Decoded)
    (hparse : js.Unmarshal request.Body = .ok d)
    (hput : (db.PutItem
      { TableName := "gamerDetails"
        Item :=
          [ ("gamerID", .S srv.uuid), ("timeStamp", .N (Go.fmtSprint srv.unixTime)),
            ("gamerName", .S (d.GamerName.getD "")),
            ("gamerPhoneNumber", .S (d.GamerPhoneNumber.getD "")),
            ("game", .S (d.Game.getD "")) ] } w.store).1 = .ok ()) :
    (CreateGamer js db srv request w).1.1.StatusCode = 201 ∧
    (CreateGamer js db srv request w).1.2 = none ∧
    (CreateGamer js db srv request w).1.1.Body =
      js.Marshal
        { GamerID := srv.uuid, TimeStamp := srv.unixTime
          GamerName := d.GamerName.getD ""
          GamerPhoneNumber := d.GamerPhoneNumber.getD ""
          Game := d.Game.getD "" } ∧
    (CreateGamer js db srv request w).2.calls =
      w.calls ++ [.PutItem
        { TableName := "gamerDetails"
          Item :=
            [ ("gamerID", .S srv.uuid), ("timeStamp", .N (Go.fmtSprint srv.unixTime)),
              ("gamerName", .S (d.GamerName.getD "")),
              ("gamerPhoneNumber", .S (d.GamerPhoneNumber.getD "")),
              ("game", .S (d.Game.getD "")) ] }] := by
  have hpair : ∀ p : Except Go.Error Unit × σ, p.1 = .ok () → p = (.ok (), p.2) := by
    rintro ⟨a, b⟩ h
    simp only at h
    rw [h]
  rw [CreateGamer_of_put_ok js db srv request w d _ hparse (hpair _ hput)]
  exact ⟨rfl, rfl, rfl, rfl⟩

/-- C2 at the end-to-end example of the specification: the body names Ada and
chess and no phone number; the second body carries an id and a timestamp of
its own, which the server replaces. The stand-in for `json.Marshal` writes
the fields separated by bars. -/
theorem createGamer_postcondition_witness :
    ((CreateGamer Fake.json Fake.table Fake.server
        { HTTPMethod := "POST", Body := Fake.adaBody, PathParameters := [] }
        Fake.emptyWorld).1.1.StatusCode = 201 ∧
     (CreateGamer Fake.json Fake.table Fake.server
        { HTTPMethod := "POST", Body := Fake.adaBody, PathParameters := [] }
        Fake.emptyWorld).1.2 = none ∧
     (CreateGamer Fake.json Fake.table Fake.server
        { HTTPMethod := "POST", Body := Fake.adaBody, PathParameters := [] }
        Fake.emptyWorld).1.1.Body =
       "3f2b8c1e-0000-4000-8000-000000000001|1700000000|Ada||chess" ∧
     (CreateGamer Fake.json Fake.table Fake.server
        { HTTPMethod := "POST", Body := Fake.adaBody, PathParameters := [] }
        Fake.emptyWorld).2.calls =
       [.PutItem
         { TableName := "gamerDetails"
           Item :=
             [ ("gamerID", .S "3f2b8c1e-0000-4000-8000-000000000001"),
               ("timeStamp", .N "1700000000"),
               ("gamerName", .S "Ada"), ("gamerPhoneNumber", .S ""),
               ("game", .S "chess") ] }]) ∧
    (CreateGamer Fake.json Fake.table Fake.server
        { HTTPMethod := "POST", Body := Fake.ownIdBody, PathParameters := [] }
        Fake.emptyWorld).1.1.Body =
      "3f2b8c1e-0000-4000-8000-000000000001|1700000000|Bo||" :=
  ⟨createGamer_postcondition Fake.json Fake.table Fake.server
      { HTTPMethod := "POST", Body := Fake.adaBody, PathParameters := [] } Fake.emptyWorld
      { GamerID := none, TimeStamp := none, GamerName := some "Ada", GamerPhoneNumber := none,
        Game := some "chess" } rfl rfl,
   (createGamer_postcondition Fake.json Fake.table Fake.server
      { HTTPMethod := "POST", Body := Fake.ownIdBody, PathParameters := [] } Fake.emptyWorld
      { GamerID := some "mine", TimeStamp := some 7, GamerName := some "Bo",
        GamerPhoneNumber := none, Game := none } rfl rfl).2.2.1⟩

/-- C1. Create-then-get round trip: over a store that keeps what `PutItem`
writes and returns it to a `GetItem` whose key the item carries, a POST whose
body parses answers 201, and a GET whose `gamerID` path parameter is the id
the server drew for that POST answers 200 with the very body of the 201
response, and a nil error. -/
theorem create_then_get_round_trip {σ : Type} (js : Json) (db : Sdk.Client σ)
    (srv srv2 : Server) (post get : Request) (d : Decoded) (w : Sdk.World σ)
    (hstore : Sdk.StoresItems db)
    (hlo : -(2 ^ 63 : Int) ≤ srv.unixTime) (hhi : srv.unixTime < 2 ^ 63)
    (hpost : post.HTTPMethod = "POST") (hparse : js.Unmarshal post.Body = .ok d)
    (hget : get.HTTPMethod = "GET")
    (hid : pathParam get.PathParameters "gamerID" = srv.uuid) :
    (HandleRequest js db srv post w).1.1.StatusCode = 201 ∧
    (HandleRequest js db srv post w).1.2 = none ∧
    (HandleRequest js db srv2 get (HandleRequest js db srv post w).2).1 =
      ({ StatusCode := 200, Body := (HandleRequest js db srv post w).1.1.Body }, none) := by
  obtain ⟨s1, hput, hgetItem⟩ := hstore
    { TableName := "gamerDetails"
      Item :=
        [ ("gamerID", .S srv.uuid), ("timeStamp", .N (Go.fmtSprint srv.unixTime)),
          ("gamerName", .S (d.GamerName.getD "")),
          ("gamerPhoneNumber", .S (d.GamerPhoneNumber.getD "")),
          ("game", .S (d.Game.getD "")) ] } w.store
  obtain ⟨s2, hfound⟩ := hgetItem [("gamerID", .S srv.uuid)] (by simp [Sdk.matchesKey, Sdk.mapGet])
  rw [HandleRequest_post js db srv post w hpost,
    CreateGamer_of_put_ok js db srv post w d s1 hparse hput,
    HandleRequest_get js db srv2 get _ hget]
  refine ⟨rfl, rfl, ?_⟩
  simp only [GetGamerDetails, hid, TableName, hfound,
    unmarshal_written_item srv.uuid (d.GamerName.getD "") (d.GamerPhoneNumber.getD "")
      (d.Game.getD "") srv.unixTime hlo hhi, toJSON]

/-- C1 at the end-to-end example of the specification, over the in-memory
store. -/
theorem create_then_get_round_trip_witness :
    (HandleRequest Fake.json Fake.table Fake.server
      { HTTPMethod := "POST", Body := Fake.adaBody, PathParameters := [] }
      Fake.emptyWorld).1.1.StatusCode = 201 ∧
    (HandleRequest Fake.json Fake.table Fake.server
      { HTTPMethod := "POST", Body := Fake.adaBody, PathParameters := [] }
      Fake.emptyWorld).1.2 = none ∧
    (HandleRequest Fake.json Fake.table { uuid := "unused", unixTime := 1700000060 }
      { HTTPMethod := "GET", Body := "",
        PathParameters := [("gamerID", "3f2b8c1e-0000-4000-8000-000000000001")] }
      (HandleRequest Fake.json Fake.table Fake.server
        { HTTPMethod := "POST", Body := Fake.adaBody, PathParameters := [] }
        Fake.emptyWorld).2).1 =
      ({ StatusCode := 200
         Body := (HandleRequest Fake.json Fake.table Fake.server
           { HTTPMethod := "POST", Body := Fake.adaBody, PathParameters := [] }
           Fake.emptyWorld).1.1.Body }, none) :=
  create_then_get_round_trip Fake.json Fake.table Fake.server
    { uuid := "unused", unixTime := 1700000060 }
    { HTTPMethod := "POST", Body := Fake.adaBody, PathParameters := [] }
    { HTTPMethod := "GET", Body := "",
      PathParameters := [("gamerID", "3f2b8c1e-0000-4000-8000-000000000001")] }
    { GamerID := none, TimeStamp := none, GamerName := some "Ada", GamerPhoneNumber := none,
      Game := some "chess" }
    Fake.emptyWorld Sdk.table_storesItems (by decide) (by decide) rfl rfl rfl rfl

/-- C3. Invalid requests are rejected before any store call: a request whose
method is neither POST nor GET, and a POST whose body does not parse, get
status 400 and a nil error from `HandleRequest`, and the world is unchanged:
the store is in the state it was in and no `PutItem` or `GetItem` was added
to the trace. -/
theorem invalid_request_rejected {σ : Type} (js : Json) (db : Sdk.Client σ) (srv : Server)
    (request : Request) (w : Sdk.World σ)
    (hbad : (request.HTTPMethod ≠ "POST" ∧ request.HTTPMethod ≠ "GET") ∨
      (request.HTTPMethod = "POST" ∧ ∃ e, js.Unmarshal request.Body = .error e)) :
    (HandleRequest js db srv request w).1.1.StatusCode = 400 ∧
    (HandleRequest js db srv request w).1.2 = none ∧
    (HandleRequest js db srv request w).2.store = w.store ∧
    (HandleRequest js db srv request w).2.calls = w.calls := by
  rcases hbad with ⟨hp, hg⟩ | ⟨hp, e, he⟩
  · simp [HandleRequest, hp, hg]
  · simp [HandleRequest, hp, CreateGamer, he]

/-- C3 at a DELETE request and at a POST whose body is not JSON, over the
in-memory store. -/
theorem invalid_request_rejected_witness :
    ((HandleRequest Fake.json Fake.table Fake.server
        { HTTPMethod := "DELETE", Body := "", PathParameters := [] }
        Fake.emptyWorld).1.1.StatusCode = 400 ∧
     (HandleRequest Fake.json Fake.table Fake.server
        { HTTPMethod := "DELETE", Body := "", PathParameters := [] }
        Fake.emptyWorld).1.2 = none ∧
     (HandleRequest Fake.json Fake.table Fake.server
        { HTTPMethod := "DELETE", Body := "", PathParameters := [] }
        Fake.emptyWorld).2.store = Fake.emptyWorld.store ∧
     (HandleRequest Fake.json Fake.table Fake.server
        { HTTPMethod := "DELETE", Body := "", PathParameters := [] }
        Fake.emptyWorld).2.calls = Fake.emptyWorld.calls) ∧
    ((HandleRequest Fake.json Fake.table Fake.server
        { HTTPMethod := "POST", Body := "not json", PathParameters := [] }
        Fake.emptyWorld).1.1.StatusCode = 400 ∧
     (HandleRequest Fake.json Fake.table Fake.server
        { HTTPMethod := "POST", Body := "not json", PathParameters := [] }
        Fake.emptyWorld).1.2 = none ∧
     (HandleRequest Fake.json Fake.table Fake.server
        { HTTPMethod := "POST", Body := "not json", PathParameters := [] }
        Fake.emptyWorld).2.store = Fake.emptyWorld.store ∧
     (HandleRequest Fake.json Fake.table Fake.server
        { HTTPMethod := "POST", Body := "not json", PathParameters := [] }
        Fake.emptyWorld).2.calls = Fake.emptyWorld.calls) :=
  ⟨invalid_request_rejected Fake.json Fake.table Fake.server
      { HTTPMethod := "DELETE", Body := "", PathParameters := [] } Fake.emptyWorld
      (Or.inl ⟨by decide, by decide⟩),
   invalid_request_rejected Fake.json Fake.table Fake.server
      { HTTPMethod := "POST", Body := "not json", PathParameters := [] } Fake.emptyWorld
      (Or.inr ⟨rfl, Go.Errorf "invalid character", rfl⟩)⟩

/-- C4. Get status mapping: `GetGamerDetails` makes one `GetItem` call, for the
key built from the `gamerID` path parameter, and returns a nil error; its
response is 500 when that call fails, 404 when it succeeds without an item,
500 when the item does not decode into a record, and 200 with what
`json.Marshal` gives for the decoded record otherwise. -/
theorem getGamerDetails_status_mapping {σ : Type} (js : Json) (db : Sdk.Client σ)
    (request : Request) (w : Sdk.World σ) :
    (GetGamerDetails js db request w).1.2 = none ∧
    (GetGamerDetails js db request w).2.calls =
      w.calls ++ [.GetItem { TableName := "gamerDetails",
                             Key := [("gamerID", .S (pathParam request.PathParameters "gamerID"))] }] ∧
    (∀ e, (db.GetItem { TableName := "gamerDetails",
                        Key := [("gamerID", .S (pathParam request.PathParameters "gamerID"))] }
            w.store).1 = .error e →
      (GetGamerDetails js db request w).1.1 =
        { StatusCode := 500, Body := "Failed to get gamer details" }) ∧
    ((db.GetItem { TableName := "gamerDetails",
                   Key := [("gamerID", .S (pathParam request.PathParameters "gamerID"))] }
            w.store).1 = .ok none →
      (GetGamerDetails js db request w).1.1 =
        { StatusCode := 404, Body := "Gamer not found" }) ∧
    (∀ item e, (db.GetItem { TableName := "gamerDetails",
                             Key := [("gamerID", .S (pathParam request.PathParameters "gamerID"))] }
            w.store).1 = .ok (some item) →
      unmarshalAttributeValue item GamerRecord.zero = .error e →
      (GetGamerDetails js db request w).1.1 =
        { StatusCode := 500, Body := "Failed to unmarshal gamer details" }) ∧
    (∀ item r, (db.GetItem { TableName := "gamerDetails",
                             Key := [("gamerID", .S (pathParam request.PathParameters "gamerID"))] }
            w.store).1 = .ok (some item) →
      unmarshalAttributeValue item GamerRecord.zero = .ok r →
      (GetGamerDetails js db request w).1.1 = { StatusCode := 200, Body := js.Marshal r }) := by
  simp only [GetGamerDetails, TableName]
  rcases hres : db.GetItem
      ⟨"gamerDetails", [("gamerID", .S (pathParam request.PathParameters "gamerID"))]⟩ w.store
    with ⟨res, s⟩
  rcases res with e | _ | item
  · simp
  · simp
  · rcases hdec : unmarshalAttributeValue item GamerRecord.zero with e | r
    · simp only [hdec, Except.ok.injEq, Option.some.injEq, reduceCtorEq, false_implies,
        implies_true, and_true, true_and]
      intro item1 r1 hitem hok
      subst hitem
      rw [hdec] at hok
      cases hok
    · simp only [hdec, Except.ok.injEq, Option.some.injEq, reduceCtorEq, false_implies,
        implies_true, and_true, true_and]
      refine ⟨?_, ?_⟩
      · intro item1 e1 hitem herr
        subst hitem
        rw [hdec] at herr
        cases herr
      · intro item1 r1 hitem hok
        subst hitem
        rw [hdec] at hok
        cases hok
        rfl

/-- C5. No store error detail reaches the client: two runs of `HandleRequest`
on the same request, one over a store whose calls fail with `e1` and one over
a store whose calls fail with `e2`, give the same response and error; on the
create path (a POST whose body parses) it is 500 with the fixed body
"Failed to create gamer", on the get path 500 with the fixed body
"Failed to get gamer details". -/
theorem store_error_not_leaked {σ τ : Type} (js : Json) (db1 : Sdk.Client σ)
    (db2 : Sdk.Client τ) (e1 e2 : Go.Error) (srv : Server) (request : Request)
    (w1 : Sdk.World σ) (w2 : Sdk.World τ)
    (hput1 : ∀ i s, (db1.PutItem i s).1 = .error e1)
    (hget1 : ∀ i s, (db1.GetItem i s).1 = .error e1)
    (hput2 : ∀ i s, (db2.PutItem i s).1 = .error e2)
    (hget2 : ∀ i s, (db2.GetItem i s).1 = .error e2) :
    (HandleRequest js db1 srv request w1).1 = (HandleRequest js db2 srv request w2).1 ∧
    (request.HTTPMethod = "POST" → (∃ d, js.Unmarshal request.Body = .ok d) →
      (HandleRequest js db1 srv request w1).1 =
        ({ StatusCode := 500, Body := "Failed to create gamer" }, none)) ∧
    (request.HTTPMethod = "GET" →
      (HandleRequest js db1 srv request w1).1 =
        ({ StatusCode := 500, Body := "Failed to get gamer details" }, none)) := by
  have hcreate : ∀ {ρ : Type} (db : Sdk.Client ρ) (e : Go.Error) (w : Sdk.World ρ) (d : Decoded),
      (∀ i s, (db.PutItem i s).1 = .error e) → js.Unmarshal request.Body = .ok d →
      (CreateGamer js db srv request w).1 =
        ({ StatusCode := 500, Body := "Failed to create gamer" }, none) := by
    intro ρ db e w d hput hd
    simp only [CreateGamer, hd]
    split
    · rfl
    · rename_i heq
      have := congrArg Prod.fst heq
      rw [hput] at this
      cases this
  have hcreateBad : ∀ {ρ : Type} (db : Sdk.Client ρ) (w : Sdk.World ρ) (e : Go.Error),
      js.Unmarshal request.Body = .error e →
      (CreateGamer js db srv request w).1 =
        ({ StatusCode := 400, Body := "Invalid request body" }, none) := by
    intro ρ db w e he
    simp only [CreateGamer, he]
  have hread : ∀ {ρ : Type} (db : Sdk.Client ρ) (e : Go.Error) (w : Sdk.World ρ),
      (∀ i s, (db.GetItem i s).1 = .error e) →
      (GetGamerDetails js db request w).1 =
        ({ StatusCode := 500, Body := "Failed to get gamer details" }, none) := by
    intro ρ db e w hget
    simp only [GetGamerDetails]
    split
    · rfl
    · rename_i heq
      have := congrArg Prod.fst heq
      rw [hget] at this
      cases this
    · rename_i heq
      have := congrArg Prod.fst heq
      rw [hget] at this
      cases this
  refine ⟨?_, ?_, ?_⟩
  · by_cases hp : request.HTTPMethod = "POST"
    · rw [HandleRequest_post js db1 srv request w1 hp, HandleRequest_post js db2 srv request w2 hp]
      rcases hd : js.Unmarshal request.Body with e | d
      · rw [hcreateBad db1 w1 e hd, hcreateBad db2 w2 e hd]
      · rw [hcreate db1 e1 w1 d hput1 hd, hcreate db2 e2 w2 d hput2 hd]
    · by_cases hg : request.HTTPMethod = "GET"
      · rw [HandleRequest_get js db1 srv request w1 hg, HandleRequest_get js db2 srv request w2 hg,
          hread db1 e1 w1 hget1, hread db2 e2 w2 hget2]
      · simp only [HandleRequest, hp, hg, if_false]
  · rintro hp ⟨d, hd⟩
    rw [HandleRequest_post js db1 srv request w1 hp]
    exact hcreate db1 e1 w1 d hput1 hd
  · intro hg
    rw [HandleRequest_get js db1 srv request w1 hg]
    exact hread db1 e1 w1 hget1

/-- C4 at six stores: one that fails, an empty one, one holding an item whose
timestamp is a string, one holding an item whose timestamp does not fit 64
bits, one holding an item whose name is a number attribute (a string field
takes the text of the number), and one holding an item as `CreateGamer`
writes it. The stand-in for `json.Marshal` writes the fields separated by
bars. -/
theorem getGamerDetails_status_mapping_witness :
    (GetGamerDetails Fake.json (Fake.failing Fake.connectionLost)
        { HTTPMethod := "GET", Body := "", PathParameters := [("gamerID", "g1")] }
        { store := (), calls := [] }).1.1 =
      { StatusCode := 500, Body := "Failed to get gamer details" } ∧
    (GetGamerDetails Fake.json Fake.table
        { HTTPMethod := "GET", Body := "", PathParameters := [("gamerID", "g1")] }
        Fake.emptyWorld).1.1 = { StatusCode := 404, Body := "Gamer not found" } ∧
    (GetGamerDetails Fake.json Fake.table
        { HTTPMethod := "GET", Body := "", PathParameters := [("gamerID", "g1")] }
        { store := [("gamerDetails", Fake.malformedItem)], calls := [] }).1.1 =
      { StatusCode := 500, Body := "Failed to unmarshal gamer details" } ∧
    (GetGamerDetails Fake.json Fake.table
        { HTTPMethod := "GET", Body := "", PathParameters := [("gamerID", "g1")] }
        { store := [("gamerDetails", Fake.overflowItem)], calls := [] }).1.1 =
      { StatusCode := 500, Body := "Failed to unmarshal gamer details" } ∧
    (GetGamerDetails Fake.json Fake.table
        { HTTPMethod := "GET", Body := "", PathParameters := [("gamerID", "g1")] }
        { store := [("gamerDetails", Fake.numericNameItem)], calls := [] }).1.1 =
      { StatusCode := 200, Body := "g1|1700000000|42||" } ∧
    (GetGamerDetails Fake.json Fake.table
        { HTTPMethod := "GET", Body := "", PathParameters := [("gamerID", "g1")] }
        { store := [("gamerDetails", Fake.goodItem)], calls := [] }).1.1 =
      { StatusCode := 200, Body := "g1|1700000000|Ada||chess" } :=
  ⟨(getGamerDetails_status_mapping Fake.json (Fake.failing Fake.connectionLost)
      { HTTPMethod := "GET", Body := "", PathParameters := [("gamerID", "g1")] }
      { store := (), calls := [] }).2.2.1 Fake.connectionLost rfl,
   (getGamerDetails_status_mapping Fake.json Fake.table
      { HTTPMethod := "GET", Body := "", PathParameters := [("gamerID", "g1")] }
      Fake.emptyWorld).2.2.2.1 rfl,
   (getGamerDetails_status_mapping Fake.json Fake.table
      { HTTPMethod := "GET", Body := "", PathParameters := [("gamerID", "g1")] }
      { store := [("gamerDetails", Fake.malformedItem)], calls := [] }).2.2.2.2.1
      Fake.malformedItem (.UnmarshalTypeError "string" "int64") rfl rfl,
   (getGamerDetails_status_mapping Fake.json Fake.table
      { HTTPMethod := "GET", Body := "", PathParameters := [("gamerID", "g1")] }
      { store := [("gamerDetails", Fake.overflowItem)], calls := [] }).2.2.2.2.1
      Fake.overflowItem (.NumError "ParseInt" "9223372036854775808" .ErrRange) rfl rfl,
   (getGamerDetails_status_mapping Fake.json Fake.table
      { HTTPMethod := "GET", Body := "", PathParameters := [("gamerID", "g1")] }
      { store := [("gamerDetails", Fake.numericNameItem)], calls := [] }).2.2.2.2.2
      Fake.numericNameItem
      { GamerID := "g1", TimeStamp := 1700000000, GamerName := "42", GamerPhoneNumber := "",
        Game := "" } rfl rfl,
   (getGamerDetails_status_mapping Fake.json Fake.table
      { HTTPMethod := "GET", Body := "", PathParameters := [("gamerID", "g1")] }
      { store := [("gamerDetails", Fake.goodItem)], calls := [] }).2.2.2.2.2
      Fake.goodItem
      { GamerID := "g1", TimeStamp := 1700000000, GamerName := "Ada", GamerPhoneNumber := "",
        Game := "chess" } rfl rfl⟩

/-- C5 at a POST and a GET over two stores that fail with different errors. -/
theorem store_error_not_leaked_witness :
    ((HandleRequest Fake.json (Fake.failing Fake.throttled) Fake.server
        { HTTPMethod := "POST", Body := Fake.adaBody, PathParameters := [] }
        { store := (), calls := [] }).1 =
      (HandleRequest Fake.json (Fake.failing Fake.connectionLost) Fake.server
        { HTTPMethod := "POST", Body := Fake.adaBody, PathParameters := [] }
        { store := (), calls := [] }).1 ∧
     ("POST" = "POST" → (∃ d, Fake.json.Unmarshal Fake.adaBody = .ok d) →
      (HandleRequest Fake.json (Fake.failing Fake.throttled) Fake.server
        { HTTPMethod := "POST", Body := Fake.adaBody, PathParameters := [] }
        { store := (), calls := [] }).1 =
        ({ StatusCode := 500, Body := "Failed to create gamer" }, none)) ∧
     ("POST" = "GET" →
      (HandleRequest Fake.json (Fake.failing Fake.throttled) Fake.server
        { HTTPMethod := "POST", Body := Fake.adaBody, PathParameters := [] }
        { store := (), calls := [] }).1 =
        ({ StatusCode := 500, Body := "Failed to get gamer details" }, none))) ∧
    (HandleRequest Fake.json (Fake.failing Fake.throttled) Fake.server
        { HTTPMethod := "GET", Body := "", PathParameters := [("gamerID", "g1")] }
        { store := (), calls := [] }).1 =
      (HandleRequest Fake.json (Fake.failing Fake.connectionLost) Fake.server
        { HTTPMethod := "GET", Body := "", PathParameters := [("gamerID", "g1")] }
        { store := (), calls := [] }).1 :=
  ⟨store_error_not_leaked Fake.json (Fake.failing Fake.throttled) (Fake.failing Fake.connectionLost)
      Fake.throttled Fake.connectionLost Fake.server
      { HTTPMethod := "POST", Body := Fake.adaBody, PathParameters := [] }
      { store := (), calls := [] } { store := (), calls := [] }
      (fun _ _ => rfl) (fun _ _ => rfl) (fun _ _ => rfl) (fun _ _ => rfl),
   (store_error_not_leaked Fake.json (Fake.failing Fake.throttled) (Fake.failing Fake.connectionLost)
      Fake.throttled Fake.connectionLost Fake.server
      { HTTPMethod := "GET", Body := "", PathParameters := [("gamerID", "g1")] }
      { store := (), calls := [] } { store := (), calls := [] }
      (fun _ _ => rfl) (fun _ _ => rfl) (fun _ _ => rfl) (fun _ _ => rfl)).1⟩

end Lamda

namespace TableDeleteV2

/-- C7. Deletion is not idempotent: `deleteTable` returns nil exactly when the
delete-table request returned nil; when the request fails with structured
code TableNotFoundException or ResourceNotFoundException it returns the error
"table not found: " followed by the message of the original error. -/
theorem deleteTable_not_idempotent (svcDeleteTable : String → Option Go.Error) :
    (deleteTable svcDeleteTable = none ↔ svcDeleteTable "gamerDetails" = none) ∧
    (∀ e ae, svcDeleteTable "gamerDetails" = some e → e.api = some ae →
      (ae.code = "TableNotFoundException" ∨ ae.code = "ResourceNotFoundException") →
      deleteTable svcDeleteTable = some (Go.Errorf ("table not found: " ++ ae.message))) := by
  refine ⟨?_, ?_⟩
  · simp only [deleteTable, TableName]
    rcases svcDeleteTable "gamerDetails" with _ | e
    · simp [handleDeleteError]
    · simp only [handleDeleteError, reduceCtorEq, iff_false]
      rcases e.api with _ | ae
      · simp
      · simp only
        split_ifs <;> simp
  · intro e ae he hapi hcode
    simp only [deleteTable, TableName, he, handleDeleteError, hapi]
    have hne : ae.code ≠ "TableInUseException" := by
      rcases hcode with h | h <;> rw [h] <;> decide
    simp [hne, hcode]

/-- C7 at a delete request answered with ResourceNotFoundException, and at one
that succeeds. -/
theorem deleteTable_not_idempotent_witness :
    deleteTable (fun _ => some tableMissing) =
      some (Go.Errorf "table not found: Requested resource not found: Table: gamerDetails not found") ∧
    deleteTable (fun _ => none) = none :=
  ⟨(deleteTable_not_idempotent (fun _ => some tableMissing)).2 tableMissing
      { code := "ResourceNotFoundException",
        message := "Requested resource not found: Table: gamerDetails not found" }
      rfl rfl (Or.inr rfl),
   (deleteTable_not_idempotent (fun _ => none)).1.mpr rfl⟩

end TableDeleteV2

namespace TableCreateV2

open Util

/-- C10 (as amended). An error with a structured code outside the six
recognised ones, whose text does not contain "no such host", is returned by
`HandleDynamoDBError` as it is. -/
theorem handleDynamoDBError_unknown_code (e : Go.Error) (ae : Go.APIError)
    (hapi : e.api = some ae) (hcode : ae.code ∉ recognisedCodes)
    (hdns : Go.stringsContains e.text "no such host" = false) :
    (HandleDynamoDBError (some e)).1 = some e := by
  simp only [recognisedCodes, List.mem_cons, List.mem_singleton, List.not_mem_nil, or_false,
    not_or] at hcode
  obtain ⟨h1, h2, h3, h4, h5, h6⟩ := hcode
  simp [HandleDynamoDBError, hapi, h1, h2, h3, h4, h5, h6, hdns]

/-- C10 (as amended) at an access-denied error. -/
theorem handleDynamoDBError_unknown_code_witness :
    (HandleDynamoDBError (some accessDenied)).1 = some accessDenied :=
  handleDynamoDBError_unknown_code accessDenied
    { code := "AccessDeniedException", message := "User is not authorized to perform: dynamodb:CreateTable" }
    rfl (by decide) (by decide)

/-- C10 as stated fails: an error with the unrecognised code
UnknownOperationException whose text contains "no such host" is replaced by
the fixed DNS diagnostic, which does not contain the original message. -/
theorem handleDynamoDBError_unknown_code_counterexample :
    hostLookupFailure.api =
      some { code := "UnknownOperationException",
             message := "lookup dynamodb.us-east-1.amazonaws.com: no such host" } ∧
    "UnknownOperationException" ∉ recognisedCodes ∧
    (HandleDynamoDBError (some hostLookupFailure)).1 =
      some (Go.Errorf
        "dns resolution error. Please check your internet connection or AWS endpoint configuration") ∧
    (HandleDynamoDBError (some hostLookupFailure)).1 ≠ some hostLookupFailure ∧
    Go.stringsContains
      "dns resolution error. Please check your internet connection or AWS endpoint configuration"
      "lookup dynamodb.us-east-1.amazonaws.com: no such host" = false := by
  decide

/-- A run that consumes only non-terminal answers does not return, and polls
once per answer. -/
theorem wait_of_no_terminal (tableName : String) (answers : List DescribeAnswer)
    (h : ∀ a ∈ answers, isTerminal a = false) :
    waitForTableCreation tableName answers =
      { result := none, trace := pollTrace tableName answers.length } := by
  induction answers with
  | nil => rfl
  | cons a rest ih =>
    have ha := h a (List.mem_cons_self a rest)
    have hrest := ih (fun b hb => h b (List.mem_cons_of_mem a hb))
    cases a with
    | error e => simp [isTerminal] at ha
    | ok status =>
      have hs : status ≠ TableStatusActive := by simpa [isTerminal] using ha
      simp [waitForTableCreation, hs, hrest, pollTrace]

/-- A run stops at the first terminal answer. -/
theorem wait_of_first_terminal (tableName : String) (pre : List DescribeAnswer)
    (r : DescribeAnswer) (post : List DescribeAnswer)
    (hpre : ∀ a ∈ pre, isTerminal a = false) (hr : isTerminal r = true) :
    waitForTableCreation tableName (pre ++ r :: post) =
      { result := some (match r with | .error e => some e | .ok _ => none)
        trace := pollTrace tableName pre.length ++ [.DescribeTable tableName] } := by
  induction pre with
  | nil =>
    cases r with
    | error e => simp [waitForTableCreation, pollTrace]
    | ok status =>
      have hs : status = TableStatusActive := by simpa [isTerminal] using hr
      simp [waitForTableCreation, hs, pollTrace]
  | cons a rest ih =>
    have ha := hpre a (List.mem_cons_self a rest)
    have hrest := ih (fun b hb => hpre b (List.mem_cons_of_mem a hb))
    cases a with
    | error e => simp [isTerminal] at ha
    | ok status =>
      have hs : status ≠ TableStatusActive := by simpa [isTerminal] using ha
      simp [waitForTableCreation, hs, hrest, pollTrace]

/-- Every list of answers either has no terminal answer or splits at its
first one. -/
theorem split_at_first_terminal (answers : List DescribeAnswer) :
    (∀ a ∈ answers, isTerminal a = false) ∨
    ∃ pre r post, answers = pre ++ r :: post ∧ (∀ a ∈ pre, isTerminal a = false) ∧
      isTerminal r = true := by
  induction answers with
  | nil => exact Or.inl (by simp)
  | cons a rest ih =>
    by_cases ha : isTerminal a = true
    · exact Or.inr ⟨[], a, rest, rfl, by simp, ha⟩
    · have ha' : isTerminal a = false := by simpa using ha
      rcases ih with hnone | ⟨pre, r, post, heq, hpre, hr⟩
      · left
        intro b hb
        rcases List.mem_cons.mp hb with rfl | hb
        · exact ha'
        · exact hnone b hb
      · right
        refine ⟨a :: pre, r, post, by simp [heq], ?_, hr⟩
        intro b hb
        rcases List.mem_cons.mp hb with rfl | hb
        · exact ha'
        · exact hpre b hb

/-- Describe calls of a trace that starts with `n` unsuccessful polls. -/
theorem describeCalls_pollTrace (tableName : String) (n : Nat) (tl : List Event) :
    describeCalls (pollTrace tableName n ++ tl) = n + describeCalls tl := by
  induction n with
  | zero => simp [pollTrace]
  | succ k ih =>
    have hstep : describeCalls (pollTrace tableName (k + 1) ++ tl) =
        describeCalls (pollTrace tableName k ++ tl) + 1 := by
      simp [describeCalls, pollTrace, List.filter]
    rw [hstep, ih]
    omega

/-- Seconds slept in a trace that starts with `n` unsuccessful polls. -/
theorem sleptSeconds_pollTrace (tableName : String) (n : Nat) (tl : List Event) :
    sleptSeconds (pollTrace tableName n ++ tl) = 5 * n + sleptSeconds tl := by
  induction n with
  | zero => simp [pollTrace]
  | succ k ih =>
    have hstep : sleptSeconds (pollTrace tableName (k + 1) ++ tl) =
        5 + sleptSeconds (pollTrace tableName k ++ tl) := by
      simp [sleptSeconds, pollTrace]
    rw [hstep, ih]
    omega

/-- C8. Wait-for-ready result: against a schedule of describe answers whose
first failure-or-Active answer is `r`, after the answers `pre`,
`waitForTableCreation` returns the error of `r` unchanged when `r` is a
failure and nil when `r` reports Active; it has made one describe call per
answer of `pre`, each followed by a sleep of five seconds, then the describe
call answered by `r`, and nothing after it, whatever the schedule holds
beyond `r`. -/
theorem waitForTableCreation_result (tableName : String) (pre : List DescribeAnswer)
    (r : DescribeAnswer) (post : List DescribeAnswer)
    (hpre : ∀ a ∈ pre, isTerminal a = false) (hr : isTerminal r = true) :
    (waitForTableCreation tableName (pre ++ r :: post)).result =
      some (match r with | .error e => some e | .ok _ => none) ∧
    (waitForTableCreation tableName (pre ++ r :: post)).trace =
      pollTrace tableName pre.length ++ [.DescribeTable tableName] ∧
    describeCalls (waitForTableCreation tableName (pre ++ r :: post)).trace = pre.length + 1 ∧
    sleptSeconds (waitForTableCreation tableName (pre ++ r :: post)).trace = 5 * pre.length := by
  rw [wait_of_first_terminal tableName pre r post hpre hr]
  refine ⟨rfl, rfl, ?_, ?_⟩
  · simp only [describeCalls_pollTrace]
    rfl
  · simp only [sleptSeconds_pollTrace]
    rfl

/-- C8 on two schedules: CREATING, CREATING, ACTIVE and then more answers;
CREATING and then a failure. -/
theorem waitForTableCreation_result_witness :
    ((waitForTableCreation "gamerDetails"
        ([.ok "CREATING", .ok "CREATING"] ++ .ok "ACTIVE" :: [.ok "ACTIVE", .error describeDenied])).result =
      some (match (Except.ok "ACTIVE" : DescribeAnswer) with | .error e => some e | .ok _ => none) ∧
     (waitForTableCreation "gamerDetails"
        ([.ok "CREATING", .ok "CREATING"] ++ .ok "ACTIVE" :: [.ok "ACTIVE", .error describeDenied])).trace =
      pollTrace "gamerDetails" 2 ++ [.DescribeTable "gamerDetails"] ∧
     describeCalls (waitForTableCreation "gamerDetails"
        ([.ok "CREATING", .ok "CREATING"] ++ .ok "ACTIVE" :: [.ok "ACTIVE", .error describeDenied])).trace =
      2 + 1 ∧
     sleptSeconds (waitForTableCreation "gamerDetails"
        ([.ok "CREATING", .ok "CREATING"] ++ .ok "ACTIVE" :: [.ok "ACTIVE", .error describeDenied])).trace =
      5 * 2) ∧
    (waitForTableCreation "gamerDetails"
        ([.ok "CREATING"] ++ .error describeDenied :: [.ok "ACTIVE"])).result =
      some (some describeDenied) :=
  ⟨waitForTableCreation_result "gamerDetails" [.ok "CREATING", .ok "CREATING"] (.ok "ACTIVE")
      [.ok "ACTIVE", .error describeDenied] (by decide) (by decide),
   (waitForTableCreation_result "gamerDetails" [.ok "CREATING"] (.error describeDenied)
      [.ok "ACTIVE"] (by decide) (by decide)).1⟩

/-- A run has returned exactly when one of the answers it was given is
terminal. -/
theorem wait_returned_iff (tableName : String) (answers : List DescribeAnswer) :
    (waitForTableCreation tableName answers).result ≠ none ↔
      ∃ a ∈ answers, isTerminal a = true := by
  rcases split_at_first_terminal answers with hnone | ⟨pre, r, post, heq, hpre, hr⟩
  · rw [wait_of_no_terminal tableName answers hnone]
    constructor
    · intro h
      exact absurd rfl h
    · rintro ⟨a, ha, hterm⟩
      rw [hnone a ha] at hterm
      cases hterm
  · subst heq
    rw [wait_of_first_terminal tableName pre r post hpre hr]
    constructor
    · intro _
      exact ⟨r, by simp, hr⟩
    · intro _ h
      cases h

/-- An error a run returns is the error of one of the answers. -/
theorem wait_error_is_answer (tableName : String) (answers : List DescribeAnswer)
    (e : Go.Error) (h : (waitForTableCreation tableName answers).result = some (some e)) :
    .error e ∈ answers := by
  rcases split_at_first_terminal answers with hnone | ⟨pre, r, post, heq, hpre, hr⟩
  · rw [wait_of_no_terminal tableName answers hnone] at h
    cases h
  · subst heq
    rw [wait_of_first_terminal tableName pre r post hpre hr] at h
    cases r with
    | error e0 =>
      simp only [Option.some.injEq] at h
      subst h
      simp
    | ok status => simp at h

/-- C9 (as amended). `waitForTableCreation` has no deadline: against a store
that gives `f k` to the describe call number `k` it returns after finitely
many polls exactly when some answer is a failure or reports Active; an error
it returns is the error of one of the describe calls it made, never a timeout
of its own; and as long as no answer was a failure or Active it has not
returned and has polled once per answer, sleeping five seconds each time. -/
theorem waitForTableCreation_returns_iff (tableName : String) (f : Nat → DescribeAnswer) :
    ((∃ n, (waitForTableCreation tableName (answersOf f n)).result ≠ none) ↔
      ∃ k, isTerminal (f k) = true) ∧
    (∀ n e, (waitForTableCreation tableName (answersOf f n)).result = some (some e) →
      ∃ k, k < n ∧ f k = .error e) ∧
    (∀ n, (∀ k, k < n → isTerminal (f k) = false) →
      waitForTableCreation tableName (answersOf f n) =
        { result := none, trace := pollTrace tableName n }) := by
  refine ⟨⟨?_, ?_⟩, ?_, ?_⟩
  · rintro ⟨n, hn⟩
    obtain ⟨a, ha, hterm⟩ := (wait_returned_iff tableName (answersOf f n)).mp hn
    simp only [answersOf, List.mem_map, List.mem_range] at ha
    obtain ⟨k, _, rfl⟩ := ha
    exact ⟨k, hterm⟩
  · rintro ⟨k, hk⟩
    refine ⟨k + 1, (wait_returned_iff tableName (answersOf f (k + 1))).mpr ⟨f k, ?_, hk⟩⟩
    simp only [answersOf, List.mem_map, List.mem_range]
    exact ⟨k, Nat.lt_succ_self k, rfl⟩
  · intro n e h
    have hmem := wait_error_is_answer tableName (answersOf f n) e h
    simp only [answersOf, List.mem_map, List.mem_range] at hmem
    obtain ⟨k, hk, hfk⟩ := hmem
    exact ⟨k, hk, hfk⟩
  · intro n hn
    have hall : ∀ a ∈ answersOf f n, isTerminal a = false := by
      intro a ha
      simp only [answersOf, List.mem_map, List.mem_range] at ha
      obtain ⟨k, hk, rfl⟩ := ha
      exact hn k hk
    have := wait_of_no_terminal tableName (answersOf f n) hall
    simpa [answersOf] using this

/-- C9 (as amended) at a store whose table is ACTIVE from the third poll: the
wait returns. -/
theorem waitForTableCreation_returns_iff_witness :
    ∃ n, (waitForTableCreation "gamerDetails" (answersOf activeAtThird n)).result ≠ none :=
  (waitForTableCreation_returns_iff "gamerDetails" activeAtThird).1.mpr ⟨2, by decide⟩

/-- C9 as stated fails: against the store whose describe call always succeeds
with status CREATING, no number of polls makes `waitForTableCreation` return,
with a timeout or otherwise. -/
theorem waitForTableCreation_blocks_counterexample :
    ¬ ∃ n, (waitForTableCreation "gamerDetails" (answersOf alwaysCreating n)).result ≠ none := by
  rintro ⟨n, hn⟩
  obtain ⟨a, ha, hterm⟩ := (wait_returned_iff "gamerDetails" (answersOf alwaysCreating n)).mp hn
  simp only [answersOf, List.mem_map, List.mem_range, alwaysCreating] at ha
  obtain ⟨_, _, rfl⟩ := ha
  revert hterm
  decide

/-- C6 (as amended). The create-table utility decides on the text of the
error, not on its structured code: when the create-table request fails with
an error whose text contains "Table already exists" it exits with code 0
without a describe call; when it fails with any other error it exits with
code 1 without a describe call, after logging "Failed to create DynamoDB
table: " and the error text; when the request succeeds it goes on to
`waitForTableCreation` on the table: it makes the describe calls of that
wait, exits with 0 when the wait returns nil and with 1 when it returns an
error, and has not exited while the wait has not returned. -/
theorem main_exit_on_create_error (err : Go.Error) (answers : List DescribeAnswer) :
    (Go.stringsContains err.text "Table already exists" = true →
      (main none (fun _ => some err) answers).result = some 0 ∧
      describeCalls (main none (fun _ => some err) answers).trace = 0) ∧
    (Go.stringsContains err.text "Table already exists" = false →
      (main none (fun _ => some err) answers).result = some 1 ∧
      describeCalls (main none (fun _ => some err) answers).trace = 0 ∧
      Event.Log ("Failed to create DynamoDB table: " ++ err.text) ∈
        (main none (fun _ => some err) answers).trace) ∧
    ((main none (fun _ => none) answers).result =
        (waitForTableCreation "gamerDetails" answers).result.map
          (fun r => match r with | none => 0 | some _ => 1) ∧
      describeCalls (main none (fun _ => none) answers).trace =
        describeCalls (waitForTableCreation "gamerDetails" answers).trace) := by
  refine ⟨?_, ?_, ?_, ?_⟩
  · intro h
    simp [main, createTable, h, describeCalls, List.filter]
  · intro h
    simp [main, createTable, h, describeCalls, List.filter, fatalExit]
  · simp only [main, createTable, TableName]
    rcases (waitForTableCreation "gamerDetails" answers).result with _ | _ | e <;> rfl
  · simp only [main, createTable, TableName]
    rcases hres : (waitForTableCreation "gamerDetails" answers).result with _ | _ | e <;>
      simp [describeCalls, List.filter, List.filter_append]

/-- C6 (as amended) at the already-exists failure as the service reports it:
the utility exits with code 0 and makes no describe call; and at a successful
request followed by a table that is ACTIVE at the first poll. -/
theorem main_exit_on_create_error_witness :
    ((main none (fun _ => some tableAlreadyExists) [.ok "ACTIVE"]).result = some 0 ∧
      describeCalls (main none (fun _ => some tableAlreadyExists) [.ok "ACTIVE"]).trace = 0) ∧
    (main none (fun _ => none) [.ok "ACTIVE"]).result =
      (waitForTableCreation "gamerDetails" [.ok "ACTIVE"]).result.map
        (fun r => match r with | none => 0 | some _ => 1) :=
  ⟨(main_exit_on_create_error tableAlreadyExists [.ok "ACTIVE"]).1 (by decide),
   (main_exit_on_create_error tableAlreadyExists [.ok "ACTIVE"]).2.2.1⟩

/-- C6 as stated fails in both directions: a create-table error with the
structured code ResourceInUseException whose text lacks "Table already
exists" makes the utility exit with code 1, and an error with another code
whose text contains it makes the utility exit with code 0. -/
theorem main_exit_by_code_counterexample :
    (tableBeingCreated.api.map (fun ae => ae.code) = some "ResourceInUseException" ∧
      (main none (fun _ => some tableBeingCreated) []).result = some 1) ∧
    (internalWithPhrase.api.map (fun ae => ae.code) = some "InternalServerError" ∧
      (main none (fun _ => some internalWithPhrase) []).result = some 0) := by
  decide

end TableCreateV2
